import Mathlib

set_option maxHeartbeats 1000000

/-!
Verification of the module download/prefetch coordinator of the mobile client:
the Status Store records a status per (siteId, component, componentId), the
Download Coordinator (CoreCourseActivityPrefetchHandlerBase.prefetchPackage and
CoreCourseResourcePrefetchHandlerBase.downloadOrPrefetch) drives the
NOT_DOWNLOADED/OUTDATED -> DOWNLOADING -> DOWNLOADED transitions with per-key
de-duplication through the OngoingDownload registry and rollback on failure,
and CoreCourseModuleComponent observes status-change broadcasts.

The coordinator runs on a single-threaded event loop.  One call of
prefetchPackage/downloadOrPrefetch is embedded as one atomic step: the
connectivity check, the de-duplication check and the registration of the new
OngoingDownload entry all happen in the same synchronous turn in the source
(no await separates them), and the chained DOWNLOADING store write plus the
start of the work function are the immediate continuations of that turn.  The
settlement of the promise chain (work finished, DOWNLOADED write or rollback,
unregistration, resolution of the callers' shared promise) is a second atomic
step.  Interleavings of different keys and of call/settle steps are arbitrary
lists of such events.
-/

namespace Prefetch

/-- Package status values (CoreConstants.NOT_DOWNLOADED / DOWNLOADING /
DOWNLOADED / OUTDATED).  Modelled from the spec: the CoreConstants declarations
are not under src/; the spec's section 3 fixes the four-element status enum. -/
inductive PkgStatus
  | notDownloaded
  | downloading
  | downloaded
  | outdated
deriving DecidableEq, Repr

/-- A JavaScript value as far as the coordinator inspects one: the source only
tests whether the work function's resolution value is a string, so strings are
kept and every non-string value (undefined or anything else) is opaque. -/
inductive JsVal
  | vstr (s : String)
  | vundef
  | vother
deriving DecidableEq, Repr

/-- The composite key (siteId, component, componentId) of the Status Store;
the per-handler OngoingDownload registry uses the same identification, the
component being fixed per handler instance. -/
structure PkgKey where
  siteId : String
  component : String
  componentId : Nat
deriving DecidableEq, Repr

/-- One persisted package record (spec section 3 PackageStatusRecord).  The
updated timestamp is elided: no claim concerns it.  Absence of a record is
equivalent to NOT_DOWNLOADED with nothing captured and an empty extra. -/
structure PkgEntry where
  status : PkgStatus
  previous : Option PkgStatus
  extra : String
deriving DecidableEq, Repr

/-- The record an absent key stands for. -/
def PkgEntry.initial : PkgEntry :=
  ⟨PkgStatus.notDownloaded, none, ""⟩

/-- First-match association-list lookup; the stores below push fresh records
in front, so the first match is the current one. -/
def alookup {α β : Type} [DecidableEq α] : List (α × β) → α → Option β
  | [], _ => none
  | p :: t, x => if p.1 = x then some p.2 else alookup t x

@[simp]
theorem alookup_nil {α β : Type} [DecidableEq α] (x : α) :
    alookup ([] : List (α × β)) x = none :=
  rfl

@[simp]
theorem alookup_cons {α β : Type} [DecidableEq α] (p : α × β) (t : List (α × β)) (x : α) :
    alookup (p :: t) x = if p.1 = x then some p.2 else alookup t x :=
  rfl

/-- The persistent Status Store content: latest record first per key. -/
abbrev PkgStore := List (PkgKey × PkgEntry)

/-- The record currently stored for a key, absence read as NOT_DOWNLOADED. -/
def storedEntry (st : PkgStore) (k : PkgKey) : PkgEntry :=
  (alookup st k).getD PkgEntry.initial

/-- Modelled from the spec: CoreFilepoolProvider.storePackageStatus is not
under src/ (only its callers in part_003 are).  Spec section 4.1: set updates
the record; storing DOWNLOADING performs setPrevious first (capture the current
status into previousStatus, idempotent if already DOWNLOADING); a transition
away from DOWNLOADING into DOWNLOADED clears the captured previousStatus; when
no extra is supplied the stored extra is kept. -/
def storePackageStatus (st : PkgStore) (k : PkgKey) (status : PkgStatus)
    (extra : Option String) : PkgStore :=
  let e := storedEntry st k
  let prev : Option PkgStatus :=
    if status = PkgStatus.downloading then
      (if e.status = PkgStatus.downloading then e.previous else some e.status)
    else if status = PkgStatus.downloaded ∧ e.status = PkgStatus.downloading then
      none
    else
      e.previous
  (k, ⟨status, prev, extra.getD e.extra⟩) :: st

/-- Modelled from the spec: CoreFilepoolProvider.setPackagePreviousStatus is
not under src/.  Spec section 4.1 restorePrevious: set the status back to the
captured previousStatus, defaulting to NOT_DOWNLOADED when none was captured;
the extra payload is untouched. -/
def setPackagePreviousStatus (st : PkgStore) (k : PkgKey) : PkgStore :=
  let e := storedEntry st k
  (k, ⟨e.previous.getD PkgStatus.notDownloaded, e.previous, e.extra⟩) :: st

/-- CoreCourseActivityPrefetchHandlerBase.setDownloading (part_003 lines
144-148): store the DOWNLOADING status for the key. -/
def setDownloading (st : PkgStore) (k : PkgKey) : PkgStore :=
  storePackageStatus st k PkgStatus.downloading none

/-- CoreCourseActivityPrefetchHandlerBase.setDownloaded (part_003 lines
131-135): store the DOWNLOADED status together with the extra payload. -/
def setDownloaded (st : PkgStore) (k : PkgKey) (extra : String) : PkgStore :=
  storePackageStatus st k PkgStatus.downloaded (some extra)

/-- The store effect of CoreCourseActivityPrefetchHandlerBase.
setPreviousStatusAndReject (part_003 lines 158-164): restore the previous
status; the subsequent rejection of the caller's promise is performed by the
settlement step below. -/
def setPreviousStatusAndReject (st : PkgStore) (k : PkgKey) : PkgStore :=
  setPackagePreviousStatus st k

/-- The outcome a caller-supplied asynchronous work function will produce when
it completes: a resolution value or a rejection error. -/
inductive WorkOutcome
  | ok (v : JsVal)
  | err (e : JsVal)
deriving DecidableEq, Repr

/-- One OngoingDownload registry entry: the identity of the shared pending
promise and the outcome the registered work will produce.  Modelled from the
spec: the CoreCourseModulePrefetchHandlerBase registry (isDownloading,
getOngoingDownload, addOngoingDownload) is not under src/; spec section 3: an
entry is created when a download starts and removed unconditionally when it
settles, and a de-duplicated caller is handed the same pending result. -/
structure Ongoing where
  pid : Nat
  pending : WorkOutcome
deriving DecidableEq, Repr

/-- Spec-level store operations, logged to state the per-invocation ordering
setPrevious -> set(DOWNLOADING) -> work -> set(DOWNLOADED) or restorePrevious
of spec section 5. -/
inductive CoordOp
  | opSetPrevious
  | opSet (s : PkgStatus)
  | opWork
  | opRestorePrevious
deriving DecidableEq, Repr

/-- The ingredients of the translated error message the offline precondition
rejects with (translate.instant applied to the key core.networkerrormsg). -/
def networkerrormsg : JsVal :=
  JsVal.vstr "core.networkerrormsg"

/-- The error a failing Status Store write rejects with (spec section 7,
StoreUnavailable). -/
def storeUnavailableErr : JsVal :=
  JsVal.vstr "store-unavailable"

/-- The coordinator's extra-payload coercion (part_003 lines 108-111): only
string results are accepted, every other resolution value is replaced by the
empty string. -/
def jsExtra : JsVal → String
  | JsVal.vstr s => s
  | _ => ""

/-- The whole observable state of one coordinator run: the Status Store, the
OngoingDownload registry, a fresh-promise counter, the settled promises, which
promise each caller was handed, the keys on which a work routine was invoked
(in invocation order) and the spec-level store-operation trace. -/
structure CoordState where
  store : PkgStore
  ongoing : List (PkgKey × Ongoing)
  nextP : Nat
  settled : List (Nat × WorkOutcome)
  callerP : List (Nat × Nat)
  workLog : List PkgKey
  opLog : List (PkgKey × CoordOp)
deriving DecidableEq, Repr

/-- The state before any call: empty store, nothing in flight. -/
def CoordState.initial : CoordState :=
  ⟨[], [], 0, [], [], [], []⟩

/-- CoreCourseActivityPrefetchHandlerBase.prefetchPackage (part_003 lines
89-121) as one event-loop step.  In source order: if the connectivity oracle
reports offline, return a promise immediately rejected with the network error;
if the key already has an OngoingDownload entry, hand the caller that same
pending promise; otherwise chain setDownloading, the work function and the
final status write, and register the chain in the registry.  The oracle's
answer at this call is the online argument; the work function is represented
by the outcome it will produce, recorded in the registry entry until the
settleDownload step consumes it. -/
def prefetchPackage (σ : CoordState) (online : Bool) (c : Nat) (k : PkgKey)
    (wf : WorkOutcome) : CoordState :=
  if online = false then
    { σ with
      nextP := σ.nextP + 1,
      settled := (σ.nextP, WorkOutcome.err networkerrormsg) :: σ.settled,
      callerP := (c, σ.nextP) :: σ.callerP }
  else
    match alookup σ.ongoing k with
    | some ent =>
        { σ with callerP := (c, ent.pid) :: σ.callerP }
    | none =>
        { σ with
          store := setDownloading σ.store k,
          ongoing := (k, ⟨σ.nextP, wf⟩) :: σ.ongoing,
          nextP := σ.nextP + 1,
          callerP := (c, σ.nextP) :: σ.callerP,
          workLog := σ.workLog ++ [k],
          opLog := σ.opLog ++
            [(k, CoordOp.opSetPrevious), (k, CoordOp.opSet PkgStatus.downloading),
             (k, CoordOp.opWork)] }

/-- Settlement of the promise chain built by prefetchPackage (part_003 lines
103-118).  On work success the extra coercion and setDownloaded run; the
chain's resolution value is the result of the setDownloaded store write, which
resolves with void (spec section 4.1: set returns void; the source documents
the returned data as not reliable).  When that DOWNLOADED write itself fails
(dlWriteOk = false, spec section 7 StoreUnavailable) or when the work function
rejects, the catch handler runs setPreviousStatusAndReject: restore the
previous status, then reject the shared promise with the error unchanged.  The
OngoingDownload entry is removed unconditionally on every path before the
promise settles. -/
def settleDownload (σ : CoordState) (k : PkgKey) (dlWriteOk : Bool) : CoordState :=
  match alookup σ.ongoing k with
  | none => σ
  | some ent =>
      let og := σ.ongoing.filter (fun p => decide (p.1 ≠ k))
      match ent.pending with
      | WorkOutcome.ok v =>
          if dlWriteOk then
            { σ with
              store := setDownloaded σ.store k (jsExtra v),
              ongoing := og,
              settled := (ent.pid, WorkOutcome.ok JsVal.vundef) :: σ.settled,
              opLog := σ.opLog ++ [(k, CoordOp.opSet PkgStatus.downloaded)] }
          else
            { σ with
              store := setPreviousStatusAndReject σ.store k,
              ongoing := og,
              settled := (ent.pid, WorkOutcome.err storeUnavailableErr) :: σ.settled,
              opLog := σ.opLog ++ [(k, CoordOp.opRestorePrevious)] }
      | WorkOutcome.err e =>
          { σ with
            store := setPreviousStatusAndReject σ.store k,
            ongoing := og,
            settled := (ent.pid, WorkOutcome.err e) :: σ.settled,
            opLog := σ.opLog ++ [(k, CoordOp.opRestorePrevious)] }

/-- One scheduler event: a caller invoking the coordinator (with the oracle's
answer at that moment and the outcome its work function would produce), or the
in-flight operation for a key completing (with the success of the DOWNLOADED
store write). -/
inductive CoordEv
  | call (online : Bool) (c : Nat) (k : PkgKey) (wf : WorkOutcome)
  | finish (k : PkgKey) (dlWriteOk : Bool)
deriving DecidableEq, Repr

/-- Apply one event. -/
def coordStep (σ : CoordState) : CoordEv → CoordState
  | CoordEv.call online c k wf => prefetchPackage σ online c k wf
  | CoordEv.finish k ok => settleDownload σ k ok

/-- Run a list of events in order. -/
def coordRun (σ : CoordState) (evs : List CoordEv) : CoordState :=
  evs.foldl coordStep σ

/-- CoreCourseResourcePrefetchHandlerBase.downloadOrPrefetch
(resource-prefetch-handler.ts lines 51-92) as one event-loop step, faithful
to the source's own control flow: check the connectivity oracle (reject with
the network error), check the registry (hand a de-duplicated caller the same
pending promise), and otherwise build and register the pipeline
loadContents, then getIntroFiles, then the filepool download-or-prefetch of
the content and intro files.  The function itself writes no package status
and installs no catch handler; every status transition happens inside the
filepool stage of the pipeline (not under src/), applied at settlement by
settleResourceDownload.  The work argument is the eventual outcome of the
registered pipeline promise. -/
def downloadOrPrefetch (σ : CoordState) (online : Bool) (c : Nat) (k : PkgKey)
    (work : WorkOutcome) : CoordState :=
  if online = false then
    { σ with
      nextP := σ.nextP + 1,
      settled := (σ.nextP, WorkOutcome.err networkerrormsg) :: σ.settled,
      callerP := (c, σ.nextP) :: σ.callerP }
  else
    match alookup σ.ongoing k with
    | some ent =>
        { σ with callerP := (c, ent.pid) :: σ.callerP }
    | none =>
        { σ with
          ongoing := (k, ⟨σ.nextP, work⟩) :: σ.ongoing,
          nextP := σ.nextP + 1,
          callerP := (c, σ.nextP) :: σ.callerP,
          workLog := σ.workLog ++ [k] }

/-- The two stages at which the resource pipeline can settle: a rejection of
loadContents or getIntroFiles before any status write (the source documents
that loadContents with ignoreCache always fails when offline or the server
is down, and the chain has no catch), or the completion of the filepool
download stage with a work outcome. -/
inductive ResourcePipeline
  | prefixFail (e : JsVal)
  | filepool (w : WorkOutcome)
deriving DecidableEq, Repr

/-- The outcome the registered resource pipeline promise eventually produces:
a prefixed-stage rejection propagates its error; the filepool stage resolves
with the Promise.all array (never a string) or propagates its error. -/
def resourceResult : ResourcePipeline → WorkOutcome
  | ResourcePipeline.prefixFail e => WorkOutcome.err e
  | ResourcePipeline.filepool (WorkOutcome.ok _) => WorkOutcome.ok JsVal.vother
  | ResourcePipeline.filepool (WorkOutcome.err e) => WorkOutcome.err e

/-- Settlement of the resource pipeline registered by downloadOrPrefetch.  A
prefix failure (loadContents or getIntroFiles rejected) removes the registry
entry and rejects the shared promise with the error, the status store
untouched: the source chain writes no status itself and has no catch, so
this path performs no DOWNLOADING transition and no rollback.  When the
pipeline reached the filepool stage, the spec-modelled filepool internals
(the filepool-level downloadPackage and prefetchPackage are not under src/;
spec section 4.2) capture the previous status and write DOWNLOADING after
the prefix, then DOWNLOADED on success; on failure, or on a failing
DOWNLOADED write, they restore the previous status; the shared promise
resolves with the Promise.all array or rejects with the error.  The registry
entry is removed on every path. -/
def settleResourceDownload (σ : CoordState) (k : PkgKey) (pl : ResourcePipeline)
    (dlWriteOk : Bool) : CoordState :=
  match alookup σ.ongoing k with
  | none => σ
  | some ent =>
      let og := σ.ongoing.filter (fun p => decide (p.1 ≠ k))
      match pl with
      | ResourcePipeline.prefixFail e =>
          { σ with
            ongoing := og,
            settled := (ent.pid, WorkOutcome.err e) :: σ.settled }
      | ResourcePipeline.filepool w =>
          let st1 := storePackageStatus σ.store k PkgStatus.downloading none
          match w with
          | WorkOutcome.ok _ =>
              if dlWriteOk then
                { σ with
                  store := storePackageStatus st1 k PkgStatus.downloaded none,
                  ongoing := og,
                  settled := (ent.pid, WorkOutcome.ok JsVal.vother) :: σ.settled,
                  opLog := σ.opLog ++ [(k, CoordOp.opSetPrevious),
                    (k, CoordOp.opSet PkgStatus.downloading), (k, CoordOp.opWork),
                    (k, CoordOp.opSet PkgStatus.downloaded)] }
              else
                { σ with
                  store := setPackagePreviousStatus st1 k,
                  ongoing := og,
                  settled := (ent.pid, WorkOutcome.err storeUnavailableErr) :: σ.settled,
                  opLog := σ.opLog ++ [(k, CoordOp.opSetPrevious),
                    (k, CoordOp.opSet PkgStatus.downloading), (k, CoordOp.opWork),
                    (k, CoordOp.opRestorePrevious)] }
          | WorkOutcome.err e =>
              { σ with
                store := setPackagePreviousStatus st1 k,
                ongoing := og,
                settled := (ent.pid, WorkOutcome.err e) :: σ.settled,
                opLog := σ.opLog ++ [(k, CoordOp.opSetPrevious),
                  (k, CoordOp.opSet PkgStatus.downloading), (k, CoordOp.opWork),
                  (k, CoordOp.opRestorePrevious)] }

/-- A record with the extra payload forgotten. -/
def normEntry (e : PkgEntry) : PkgEntry :=
  ⟨e.status, e.previous, ""⟩

/-- An outcome with the resolution value normalised: both variants document
the resolved data as not reliable, so success values are identified; rejection
errors are kept. -/
def normOutcome : WorkOutcome → WorkOutcome
  | WorkOutcome.ok _ => WorkOutcome.ok JsVal.vundef
  | WorkOutcome.err e => WorkOutcome.err e

/-- The coordination view of a state: statuses and captured previous statuses,
the OngoingDownload registry, the caller-to-promise assignment, which promises
settled and with which rejection error, the work invocations and the store
operation trace -- everything except the extra payload and the resolved
values, which belong to the variants' file-acquisition channel. -/
def coordView (σ : CoordState) : CoordState :=
  { σ with
    store := σ.store.map (fun p => (p.1, normEntry p.2)),
    settled := σ.settled.map (fun p => (p.1, normOutcome p.2)) }

/-- Configuration of one CoreCourseModuleComponent instance (part_004): the
module id, the component tag of the prefetch handler found in ngOnInit (none
when the module shows no download button and no observer is registered),
whether download is enabled, whether the module's handlerData defines an
updateStatus callback, and whether the prefetch delegate can check updates. -/
structure ModuleCmp where
  moduleId : Nat
  handlerComponent : Option String
  downloadEnabled : Bool
  hasUpdateStatus : Bool
  canCheckUpdates : Bool
deriving DecidableEq, Repr

/-- The component's status-dependent display state: the spinner and the
download and refresh affordances. -/
structure ModuleCmpState where
  spinner : Bool
  showDownload : Bool
  showRefresh : Bool
deriving DecidableEq, Repr

/-- A PACKAGE_STATUS_CHANGED event payload as the observer reads it:
component, componentId and the broadcast status.  A none status models a falsy
value (empty or undefined), which showStatus ignores. -/
structure StatusEvt where
  component : String
  componentId : Nat
  status : Option PkgStatus
deriving DecidableEq, Repr

/-- CoreCourseModuleComponent.showStatus (part_004 lines 158-169): when the
status is truthy, set the three affordance flags from it and, when
handlerData.updateStatus is defined, invoke it with the status.  The result is
the new display state together with the updateStatus invocations performed.
No comparison with any previously seen status occurs. -/
def showStatus (cmp : ModuleCmp) (st : ModuleCmpState) (status : Option PkgStatus) :
    ModuleCmpState × List (Option PkgStatus) :=
  match status with
  | none => (st, [])
  | some s =>
      (⟨decide (s = PkgStatus.downloading),
        decide (s = PkgStatus.notDownloaded),
        decide (s = PkgStatus.outdated) ||
          (!cmp.canCheckUpdates && decide (s = PkgStatus.downloaded))⟩,
       if cmp.hasUpdateStatus then [some s] else [])

/-- The PACKAGE_STATUS_CHANGED observer registered in
CoreCourseModuleComponent.ngOnInit (part_004 lines 82-94): react only to
events whose componentId is this module's id and whose component is the
prefetch handler's component; with download enabled run showStatus, otherwise
call handlerData.updateStatus directly (with the raw status) when it is
defined. -/
def onStatusEvent (cmp : ModuleCmp) (st : ModuleCmpState) (evt : StatusEvt) :
    ModuleCmpState × List (Option PkgStatus) :=
  match cmp.handlerComponent with
  | none => (st, [])
  | some comp =>
      if evt.componentId = cmp.moduleId ∧ evt.component = comp then
        if cmp.downloadEnabled then
          showStatus cmp st evt.status
        else if cmp.hasUpdateStatus then
          (st, [evt.status])
        else
          (st, [])
      else
        (st, [])

/-- Deliver a sequence of broadcasts to the observer, accumulating the display
state and the updateStatus invocations in order. -/
def deliverEvents (cmp : ModuleCmp) (st : ModuleCmpState) :
    List StatusEvt → ModuleCmpState × List (Option PkgStatus)
  | [] => (st, [])
  | e :: t =>
      let r := onStatusEvent cmp st e
      let rest := deliverEvents cmp r.1 t
      (rest.1, r.2 ++ rest.2)

/-! Supporting lemmas. -/

theorem alookup_filter_ne {α β : Type} [DecidableEq α] (l : List (α × β)) (k : α) :
    alookup (l.filter (fun p => !decide (p.1 = k))) k = none := by
  induction l with
  | nil => rfl
  | cons p t ih =>
      by_cases h : p.1 = k
      · simpa [List.filter_cons, h] using ih
      · simpa [List.filter_cons, h] using ih

theorem alookup_none_forall {α β : Type} [DecidableEq α] (l : List (α × β)) (k : α)
    (h : alookup l k = none) : ∀ q ∈ l, q.1 ≠ k := by
  induction l with
  | nil => simp
  | cons p t ih =>
      rw [alookup_cons] at h
      by_cases hp : p.1 = k
      · simp [hp] at h
      · simp only [if_neg hp] at h
        intro q hq
        rcases List.mem_cons.mp hq with rfl | hmem
        · exact hp
        · exact ih h q hmem

theorem filter_ne_of_alookup_none {α β : Type} [DecidableEq α] (l : List (α × β)) (k : α)
    (h : alookup l k = none) : l.filter (fun p => !decide (p.1 = k)) = l := by
  rw [List.filter_eq_self]
  intro q hq
  simpa using alookup_none_forall l k h q hq

theorem alookup_append_of_const {α β : Type} [DecidableEq α] (L rest : List (α × β))
    (x : α) (v : β) (hL : ∀ q ∈ L, q.2 = v)
    (hx : alookup rest x = some v ∨ ∃ q ∈ L, q.1 = x) :
    alookup (L ++ rest) x = some v := by
  induction L with
  | nil =>
      rcases hx with hx | ⟨q, hq, _⟩
      · simpa using hx
      · exact absurd hq (List.not_mem_nil q)
  | cons q t ih =>
      by_cases hq : q.1 = x
      · simp [hq, hL q (List.mem_cons_self q t)]
      · rw [List.cons_append, alookup_cons, if_neg hq]
        refine ih (fun r hr => hL r (List.mem_cons_of_mem q hr)) ?_
        rcases hx with hx | ⟨q', hq', hx'⟩
        · exact Or.inl hx
        · rcases List.mem_cons.mp hq' with rfl | hmem
          · exact absurd hx' hq
          · exact Or.inr ⟨q', hmem, hx'⟩

theorem coordRun_dedup (σ : CoordState) (k : PkgKey) (ent : Ongoing)
    (cs : List (Nat × WorkOutcome)) (h : alookup σ.ongoing k = some ent) :
    coordRun σ (cs.map (fun p => CoordEv.call true p.1 k p.2)) =
      { σ with callerP := (cs.map (fun p => (p.1, ent.pid))).reverse ++ σ.callerP } := by
  induction cs generalizing σ with
  | nil => rfl
  | cons p t ih =>
      have hstep : coordStep σ (CoordEv.call true p.1 k p.2) =
          { σ with callerP := (p.1, ent.pid) :: σ.callerP } := by
        simp [coordStep, prefetchPackage, h]
      have hongoing :
          alookup ({ σ with callerP := (p.1, ent.pid) :: σ.callerP } : CoordState).ongoing k =
            some ent := h
      calc coordRun σ ((p :: t).map (fun q => CoordEv.call true q.1 k q.2))
          = coordRun { σ with callerP := (p.1, ent.pid) :: σ.callerP }
              (t.map (fun q => CoordEv.call true q.1 k q.2)) := by
            simp [coordRun, hstep]
        _ = { σ with callerP :=
              ((p :: t).map (fun q => (q.1, ent.pid))).reverse ++ σ.callerP } := by
            rw [ih _ hongoing]
            simp [List.reverse_cons, List.append_assoc]

/-! Claim theorems. -/

/-- C4: if the connectivity oracle reports offline at the start of a
prefetchPackage or downloadOrPrefetch call, the call rejects immediately with
the network-unavailable error, the work function is never invoked, and the
stored status (indeed the whole store) and the registry are unchanged for both
variants. -/
theorem offline_rejects_without_mutation (σ : CoordState) (c : Nat) (k : PkgKey)
    (wf : WorkOutcome) :
    (prefetchPackage σ false c k wf).store = σ.store ∧
    (prefetchPackage σ false c k wf).workLog = σ.workLog ∧
    (prefetchPackage σ false c k wf).ongoing = σ.ongoing ∧
    alookup (prefetchPackage σ false c k wf).callerP c = some σ.nextP ∧
    alookup (prefetchPackage σ false c k wf).settled σ.nextP =
      some (WorkOutcome.err networkerrormsg) ∧
    (downloadOrPrefetch σ false c k wf).store = σ.store ∧
    (downloadOrPrefetch σ false c k wf).workLog = σ.workLog ∧
    (downloadOrPrefetch σ false c k wf).ongoing = σ.ongoing ∧
    alookup (downloadOrPrefetch σ false c k wf).callerP c = some σ.nextP ∧
    alookup (downloadOrPrefetch σ false c k wf).settled σ.nextP =
      some (WorkOutcome.err networkerrormsg) := by
  simp [prefetchPackage, downloadOrPrefetch]

/-- C5: after a successful settlement, the stored status is DOWNLOADED and the
stored extra payload equals the work function's result when it is a string,
and is cleared to the empty string when it is any non-string value. -/
theorem extra_payload_roundtrip (σ : CoordState) (k : PkgKey) (pid : Nat) (v : JsVal)
    (h : alookup σ.ongoing k = some ⟨pid, WorkOutcome.ok v⟩) :
    (storedEntry (settleDownload σ k true).store k).status = PkgStatus.downloaded ∧
    (∀ s, v = JsVal.vstr s →
      (storedEntry (settleDownload σ k true).store k).extra = s) ∧
    ((∀ s, v ≠ JsVal.vstr s) →
      (storedEntry (settleDownload σ k true).store k).extra = "") := by
  have hmain : storedEntry (settleDownload σ k true).store k =
      ⟨PkgStatus.downloaded,
        if (storedEntry σ.store k).status = PkgStatus.downloading then none
          else (storedEntry σ.store k).previous,
        jsExtra v⟩ := by
    simp [settleDownload, h, setDownloaded, storePackageStatus, storedEntry]
  refine ⟨by rw [hmain], fun s hs => by rw [hmain, hs]; rfl, fun hns => ?_⟩
  rw [hmain]
  cases v with
  | vstr s => exact absurd rfl (hns s)
  | vundef => rfl
  | vother => rfl

/-- C5 witness: a concrete in-flight entry resolving with the string v2. -/
theorem extra_payload_roundtrip_witness :
    (storedEntry (settleDownload
        ⟨[], [(⟨"s", "mod", 1⟩, ⟨0, WorkOutcome.ok (JsVal.vstr "v2")⟩)], 1, [], [], [], []⟩
        ⟨"s", "mod", 1⟩ true).store ⟨"s", "mod", 1⟩).status = PkgStatus.downloaded ∧
    (∀ s, JsVal.vstr "v2" = JsVal.vstr s →
      (storedEntry (settleDownload
        ⟨[], [(⟨"s", "mod", 1⟩, ⟨0, WorkOutcome.ok (JsVal.vstr "v2")⟩)], 1, [], [], [], []⟩
        ⟨"s", "mod", 1⟩ true).store ⟨"s", "mod", 1⟩).extra = s) ∧
    ((∀ s, JsVal.vstr "v2" ≠ JsVal.vstr s) →
      (storedEntry (settleDownload
        ⟨[], [(⟨"s", "mod", 1⟩, ⟨0, WorkOutcome.ok (JsVal.vstr "v2")⟩)], 1, [], [], [], []⟩
        ⟨"s", "mod", 1⟩ true).store ⟨"s", "mod", 1⟩).extra = "") :=
  extra_payload_roundtrip _ ⟨"s", "mod", 1⟩ 0 (JsVal.vstr "v2") (by decide)

/-- C10: when the promise of an in-flight operation settles, the stored status
is never left at DOWNLOADING (given that the captured previousStatus is not
DOWNLOADING, which no coordinator path ever stores); moreover the catch
handler covers a failure of the DOWNLOADED status write itself: if the work
succeeded but that write fails, the store is rolled back with
setPreviousStatusAndReject and the caller's promise is rejected. -/
theorem settled_never_leaves_downloading (σ : CoordState) (k : PkgKey) (ok : Bool)
    (h1 : (alookup σ.ongoing k).isSome = true)
    (h2 : (storedEntry σ.store k).previous ≠ some PkgStatus.downloading) :
    (storedEntry (settleDownload σ k ok).store k).status ≠ PkgStatus.downloading ∧
    (∀ pid v, alookup σ.ongoing k = some ⟨pid, WorkOutcome.ok v⟩ →
      (settleDownload σ k false).store = setPreviousStatusAndReject σ.store k ∧
      alookup (settleDownload σ k false).settled pid =
        some (WorkOutcome.err storeUnavailableErr)) := by
  constructor
  · rcases halt : alookup σ.ongoing k with _ | ⟨pid, pending⟩
    · rw [halt] at h1; simp at h1
    · have hrestore : (storedEntry (setPackagePreviousStatus σ.store k) k).status ≠
          PkgStatus.downloading := by
        have hh : storedEntry (setPackagePreviousStatus σ.store k) k =
            ⟨(storedEntry σ.store k).previous.getD PkgStatus.notDownloaded,
              (storedEntry σ.store k).previous, (storedEntry σ.store k).extra⟩ := by
          simp [setPackagePreviousStatus, storedEntry]
        rw [hh]
        rcases hp : (storedEntry σ.store k).previous with _ | p
        · simp
        · simp only [Option.getD_some]
          intro hc
          exact h2 (by rw [hp, hc])
      cases pending with
      | ok v =>
          cases ok with
          | true =>
              have hst : (settleDownload σ k true).store =
                  setDownloaded σ.store k (jsExtra v) := by
                simp [settleDownload, halt]
              rw [hst]
              simp [setDownloaded, storePackageStatus, storedEntry]
          | false =>
              have hst : (settleDownload σ k false).store =
                  setPackagePreviousStatus σ.store k := by
                simp [settleDownload, halt, setPreviousStatusAndReject]
              rw [hst]
              exact hrestore
      | err e =>
          have hst : (settleDownload σ k ok).store =
              setPackagePreviousStatus σ.store k := by
            cases ok <;> simp [settleDownload, halt, setPreviousStatusAndReject]
          rw [hst]
          exact hrestore
  · intro pid v hpv
    constructor
    · simp [settleDownload, hpv]
    · simp [settleDownload, hpv]

/-- C10 witness: a concrete in-flight entry over a DOWNLOADED record whose
DOWNLOADED rewrite fails. -/
theorem settled_never_leaves_downloading_witness :
    (storedEntry (settleDownload
        ⟨[(⟨"s", "mod", 2⟩, ⟨PkgStatus.downloading, some PkgStatus.notDownloaded, ""⟩)],
          [(⟨"s", "mod", 2⟩, ⟨0, WorkOutcome.ok JsVal.vundef⟩)], 1, [], [], [], []⟩
        ⟨"s", "mod", 2⟩ false).store ⟨"s", "mod", 2⟩).status ≠ PkgStatus.downloading ∧
    (∀ pid v, alookup
        (⟨[(⟨"s", "mod", 2⟩, ⟨PkgStatus.downloading, some PkgStatus.notDownloaded, ""⟩)],
          [(⟨"s", "mod", 2⟩, ⟨0, WorkOutcome.ok JsVal.vundef⟩)], 1, [], [], [], []⟩ :
            CoordState).ongoing ⟨"s", "mod", 2⟩ = some ⟨pid, WorkOutcome.ok v⟩ →
      (settleDownload
        ⟨[(⟨"s", "mod", 2⟩, ⟨PkgStatus.downloading, some PkgStatus.notDownloaded, ""⟩)],
          [(⟨"s", "mod", 2⟩, ⟨0, WorkOutcome.ok JsVal.vundef⟩)], 1, [], [], [], []⟩
        ⟨"s", "mod", 2⟩ false).store =
        setPreviousStatusAndReject
          (⟨[(⟨"s", "mod", 2⟩, ⟨PkgStatus.downloading, some PkgStatus.notDownloaded, ""⟩)],
            [(⟨"s", "mod", 2⟩, ⟨0, WorkOutcome.ok JsVal.vundef⟩)], 1, [], [], [], []⟩ :
              CoordState).store ⟨"s", "mod", 2⟩ ∧
      alookup (settleDownload
        ⟨[(⟨"s", "mod", 2⟩, ⟨PkgStatus.downloading, some PkgStatus.notDownloaded, ""⟩)],
          [(⟨"s", "mod", 2⟩, ⟨0, WorkOutcome.ok JsVal.vundef⟩)], 1, [], [], [], []⟩
        ⟨"s", "mod", 2⟩ false).settled pid =
        some (WorkOutcome.err storeUnavailableErr)) :=
  settled_never_leaves_downloading _ ⟨"s", "mod", 2⟩ false (by decide) (by decide)

/-- C3: for a call whose work function rejects with an error, the coordinator
restores the stored status for the key to its exact pre-attempt value with the
stored extra unchanged, and rejects the caller's promise with the error passed
through unchanged.  The pre-attempt stored status is assumed not to be
DOWNLOADING: the live coordinator never leaves a settled key at DOWNLOADING
(a stale DOWNLOADING record can only survive a process restart). -/
theorem prefetch_failure_rollback (σ : CoordState) (c : Nat) (k : PkgKey) (e : JsVal)
    (h1 : alookup σ.ongoing k = none)
    (h2 : (storedEntry σ.store k).status ≠ PkgStatus.downloading) :
    (storedEntry (coordRun σ [CoordEv.call true c k (WorkOutcome.err e),
        CoordEv.finish k true]).store k).status = (storedEntry σ.store k).status ∧
    (storedEntry (coordRun σ [CoordEv.call true c k (WorkOutcome.err e),
        CoordEv.finish k true]).store k).extra = (storedEntry σ.store k).extra ∧
    alookup (coordRun σ [CoordEv.call true c k (WorkOutcome.err e),
        CoordEv.finish k true]).callerP c = some σ.nextP ∧
    alookup (coordRun σ [CoordEv.call true c k (WorkOutcome.err e),
        CoordEv.finish k true]).settled σ.nextP = some (WorkOutcome.err e) := by
  have hcall : prefetchPackage σ true c k (WorkOutcome.err e) =
      { σ with
        store := (k, ⟨PkgStatus.downloading, some (storedEntry σ.store k).status,
          (storedEntry σ.store k).extra⟩) :: σ.store,
        ongoing := (k, ⟨σ.nextP, WorkOutcome.err e⟩) :: σ.ongoing,
        nextP := σ.nextP + 1,
        callerP := (c, σ.nextP) :: σ.callerP,
        workLog := σ.workLog ++ [k],
        opLog := σ.opLog ++ [(k, CoordOp.opSetPrevious),
          (k, CoordOp.opSet PkgStatus.downloading), (k, CoordOp.opWork)] } := by
    simp [prefetchPackage, h1, setDownloading, storePackageStatus, h2]
  have hrun : coordRun σ [CoordEv.call true c k (WorkOutcome.err e), CoordEv.finish k true] =
      settleDownload (prefetchPackage σ true c k (WorkOutcome.err e)) k true := rfl
  rw [hrun, hcall]
  simp [settleDownload, setPreviousStatusAndReject, setPackagePreviousStatus, storedEntry]

/-- C3 witness: the spec scenario, status DOWNLOADED with extra v1 and a work
function rejecting with boom. -/
theorem prefetch_failure_rollback_witness :
    (storedEntry (coordRun
        ⟨[(⟨"s", "mod", 3⟩, ⟨PkgStatus.downloaded, none, "v1"⟩)], [], 0, [], [], [], []⟩
        [CoordEv.call true 1 ⟨"s", "mod", 3⟩ (WorkOutcome.err (JsVal.vstr "boom")),
          CoordEv.finish ⟨"s", "mod", 3⟩ true]).store ⟨"s", "mod", 3⟩).status =
      (storedEntry
        ((⟨[(⟨"s", "mod", 3⟩, ⟨PkgStatus.downloaded, none, "v1"⟩)], [], 0, [], [], [], []⟩ :
          CoordState)).store ⟨"s", "mod", 3⟩).status ∧
    (storedEntry (coordRun
        ⟨[(⟨"s", "mod", 3⟩, ⟨PkgStatus.downloaded, none, "v1"⟩)], [], 0, [], [], [], []⟩
        [CoordEv.call true 1 ⟨"s", "mod", 3⟩ (WorkOutcome.err (JsVal.vstr "boom")),
          CoordEv.finish ⟨"s", "mod", 3⟩ true]).store ⟨"s", "mod", 3⟩).extra =
      (storedEntry
        ((⟨[(⟨"s", "mod", 3⟩, ⟨PkgStatus.downloaded, none, "v1"⟩)], [], 0, [], [], [], []⟩ :
          CoordState)).store ⟨"s", "mod", 3⟩).extra ∧
    alookup (coordRun
        ⟨[(⟨"s", "mod", 3⟩, ⟨PkgStatus.downloaded, none, "v1"⟩)], [], 0, [], [], [], []⟩
        [CoordEv.call true 1 ⟨"s", "mod", 3⟩ (WorkOutcome.err (JsVal.vstr "boom")),
          CoordEv.finish ⟨"s", "mod", 3⟩ true]).callerP 1 = some 0 ∧
    alookup (coordRun
        ⟨[(⟨"s", "mod", 3⟩, ⟨PkgStatus.downloaded, none, "v1"⟩)], [], 0, [], [], [], []⟩
        [CoordEv.call true 1 ⟨"s", "mod", 3⟩ (WorkOutcome.err (JsVal.vstr "boom")),
          CoordEv.finish ⟨"s", "mod", 3⟩ true]).settled 0 =
      some (WorkOutcome.err (JsVal.vstr "boom")) :=
  prefetch_failure_rollback _ 1 ⟨"s", "mod", 3⟩ (JsVal.vstr "boom") (by decide) (by decide)

/-- C6: a non-deduplicated invocation appends to the per-key operation trace
exactly setPrevious, set(DOWNLOADING), the work invocation, and then exactly
one of set(DOWNLOADED) (work succeeded and the DOWNLOADED write succeeded) or
restorePrevious (work rejected, or the DOWNLOADED write failed), in this
strict order with no step skipped or reordered. -/
theorem prefetch_op_ordering (σ : CoordState) (c : Nat) (k : PkgKey)
    (wf : WorkOutcome) (ok : Bool) (h : alookup σ.ongoing k = none) :
    (coordRun σ [CoordEv.call true c k wf, CoordEv.finish k ok]).opLog =
      σ.opLog ++ [(k, CoordOp.opSetPrevious), (k, CoordOp.opSet PkgStatus.downloading),
        (k, CoordOp.opWork),
        (k, match wf, ok with
            | WorkOutcome.ok _, true => CoordOp.opSet PkgStatus.downloaded
            | _, _ => CoordOp.opRestorePrevious)] := by
  have hrun : coordRun σ [CoordEv.call true c k wf, CoordEv.finish k ok] =
      settleDownload (prefetchPackage σ true c k wf) k ok := rfl
  rw [hrun]
  cases wf <;> cases ok <;> simp [prefetchPackage, h, settleDownload, List.append_assoc]

/-- C6 witness: a fresh key with a succeeding work function and a succeeding
DOWNLOADED write. -/
theorem prefetch_op_ordering_witness :
    (coordRun CoordState.initial [CoordEv.call true 1 ⟨"s", "mod", 4⟩
        (WorkOutcome.ok (JsVal.vstr "x")), CoordEv.finish ⟨"s", "mod", 4⟩ true]).opLog =
      CoordState.initial.opLog ++
        [(⟨"s", "mod", 4⟩, CoordOp.opSetPrevious),
          (⟨"s", "mod", 4⟩, CoordOp.opSet PkgStatus.downloading),
          (⟨"s", "mod", 4⟩, CoordOp.opWork),
          (⟨"s", "mod", 4⟩,
            match WorkOutcome.ok (JsVal.vstr "x"), true with
            | WorkOutcome.ok _, true => CoordOp.opSet PkgStatus.downloaded
            | _, _ => CoordOp.opRestorePrevious)] :=
  prefetch_op_ordering CoordState.initial 1 ⟨"s", "mod", 4⟩
    (WorkOutcome.ok (JsVal.vstr "x")) true (by decide)

/-- C7: the OngoingDownload entry for a key is gone after every settlement
(success, rollback, or failed DOWNLOADED write alike), so a call issued after
a previous call for the key has settled always starts fresh work: after a
successful DOWNLOADED transition a new call with a succeeding work function
invokes the work again, drives the status through DOWNLOADING and, on
settlement, to DOWNLOADED again. -/
theorem ongoing_removed_then_fresh_redownload (σ : CoordState) (c c2 : Nat)
    (k : PkgKey) (v v2 : JsVal) (h : alookup σ.ongoing k = none) :
    (∀ σ₀ : CoordState, ∀ k₀ : PkgKey, ∀ ok : Bool,
        alookup (settleDownload σ₀ k₀ ok).ongoing k₀ = none) ∧
    (coordRun σ [CoordEv.call true c k (WorkOutcome.ok v), CoordEv.finish k true,
        CoordEv.call true c2 k (WorkOutcome.ok v2)]).workLog = σ.workLog ++ [k, k] ∧
    (storedEntry (coordRun σ [CoordEv.call true c k (WorkOutcome.ok v),
        CoordEv.finish k true, CoordEv.call true c2 k (WorkOutcome.ok v2)]).store
        k).status = PkgStatus.downloading ∧
    (storedEntry (settleDownload (coordRun σ [CoordEv.call true c k (WorkOutcome.ok v),
        CoordEv.finish k true, CoordEv.call true c2 k (WorkOutcome.ok v2)]) k true).store
        k).status = PkgStatus.downloaded := by
  refine ⟨?_, ?_⟩
  · intro σ₀ k₀ ok
    rcases halt : alookup σ₀.ongoing k₀ with _ | ⟨pid, pending⟩
    · simp [settleDownload, halt]
    · cases pending <;> cases ok <;> simp [settleDownload, halt, alookup_filter_ne]
  · have hrun : coordRun σ [CoordEv.call true c k (WorkOutcome.ok v),
        CoordEv.finish k true, CoordEv.call true c2 k (WorkOutcome.ok v2)] =
        prefetchPackage (settleDownload (prefetchPackage σ true c k (WorkOutcome.ok v))
          k true) true c2 k (WorkOutcome.ok v2) := rfl
    have hfil : σ.ongoing.filter (fun p => !decide (p.1 = k)) = σ.ongoing :=
      filter_ne_of_alookup_none σ.ongoing k h
    rw [hrun]
    simp [prefetchPackage, settleDownload, h, hfil, setDownloading,
      setDownloaded, storePackageStatus, storedEntry]

/-- C7 witness: a fresh key downloaded twice in a row. -/
theorem ongoing_removed_then_fresh_redownload_witness :
    (∀ σ₀ : CoordState, ∀ k₀ : PkgKey, ∀ ok : Bool,
        alookup (settleDownload σ₀ k₀ ok).ongoing k₀ = none) ∧
    (coordRun CoordState.initial [CoordEv.call true 1 ⟨"s", "mod", 5⟩
        (WorkOutcome.ok JsVal.vundef), CoordEv.finish ⟨"s", "mod", 5⟩ true,
        CoordEv.call true 2 ⟨"s", "mod", 5⟩ (WorkOutcome.ok JsVal.vundef)]).workLog =
      CoordState.initial.workLog ++ [⟨"s", "mod", 5⟩, ⟨"s", "mod", 5⟩] ∧
    (storedEntry (coordRun CoordState.initial [CoordEv.call true 1 ⟨"s", "mod", 5⟩
        (WorkOutcome.ok JsVal.vundef), CoordEv.finish ⟨"s", "mod", 5⟩ true,
        CoordEv.call true 2 ⟨"s", "mod", 5⟩ (WorkOutcome.ok JsVal.vundef)]).store
        ⟨"s", "mod", 5⟩).status = PkgStatus.downloading ∧
    (storedEntry (settleDownload (coordRun CoordState.initial
        [CoordEv.call true 1 ⟨"s", "mod", 5⟩ (WorkOutcome.ok JsVal.vundef),
          CoordEv.finish ⟨"s", "mod", 5⟩ true,
          CoordEv.call true 2 ⟨"s", "mod", 5⟩ (WorkOutcome.ok JsVal.vundef)])
        ⟨"s", "mod", 5⟩ true).store ⟨"s", "mod", 5⟩).status = PkgStatus.downloaded :=
  ongoing_removed_then_fresh_redownload CoordState.initial 1 2 ⟨"s", "mod", 5⟩
    JsVal.vundef JsVal.vundef (by decide)

/-- C1: while a download for a key is in flight, any number of further calls
for the key are all handed the same pending promise, the work function is not
invoked again (for one first call and N de-duplicated concurrent calls the
work is invoked exactly once), and on settlement all callers observe the
outcome of that single operation through the one shared promise. -/
theorem at_most_one_inflight (σ : CoordState) (c : Nat) (k : PkgKey) (wf : WorkOutcome)
    (cs : List (Nat × WorkOutcome)) (h : alookup σ.ongoing k = none) :
    (coordRun (prefetchPackage σ true c k wf)
        (cs.map (fun p => CoordEv.call true p.1 k p.2))).workLog = σ.workLog ++ [k] ∧
    alookup (coordRun (prefetchPackage σ true c k wf)
        (cs.map (fun p => CoordEv.call true p.1 k p.2))).callerP c = some σ.nextP ∧
    (∀ p ∈ cs, alookup (coordRun (prefetchPackage σ true c k wf)
        (cs.map (fun p => CoordEv.call true p.1 k p.2))).callerP p.1 = some σ.nextP) ∧
    alookup (coordRun (prefetchPackage σ true c k wf)
        (cs.map (fun p => CoordEv.call true p.1 k p.2))).ongoing k =
      some ⟨σ.nextP, wf⟩ ∧
    alookup (settleDownload (coordRun (prefetchPackage σ true c k wf)
        (cs.map (fun p => CoordEv.call true p.1 k p.2))) k true).settled σ.nextP =
      some (normOutcome wf) := by
  have hog : alookup (prefetchPackage σ true c k wf).ongoing k =
      some ⟨σ.nextP, wf⟩ := by
    simp [prefetchPackage, h]
  have hrun := coordRun_dedup (prefetchPackage σ true c k wf) k ⟨σ.nextP, wf⟩ cs hog
  have hL : ∀ q ∈ (cs.map (fun p => (p.1, σ.nextP))).reverse, (q : Nat × Nat).2 = σ.nextP := by
    intro q hq
    rcases List.mem_map.mp (List.mem_reverse.mp hq) with ⟨p, hp, rfl⟩
    rfl
  have hcp : (prefetchPackage σ true c k wf).callerP = (c, σ.nextP) :: σ.callerP := by
    simp [prefetchPackage, h]
  refine ⟨?_, ?_, ?_, ?_, ?_⟩
  · rw [hrun]
    simp [prefetchPackage, h]
  · rw [hrun]
    refine alookup_append_of_const _ _ _ _ hL (Or.inl ?_)
    rw [hcp]
    simp
  · intro p hp
    rw [hrun]
    exact alookup_append_of_const _ _ _ _ hL
      (Or.inr ⟨(p.1, σ.nextP), List.mem_reverse.mpr (List.mem_map.mpr ⟨p, hp, rfl⟩), rfl⟩)
  · rw [hrun]
    exact hog
  · rw [hrun]
    cases wf with
    | ok v => simp [settleDownload, hog, normOutcome]
    | err e => simp [settleDownload, hog, normOutcome]

/-- C1 witness: one first caller and two concurrent callers on a fresh key. -/
theorem at_most_one_inflight_witness :
    (coordRun (prefetchPackage CoordState.initial true 1 ⟨"s", "mod", 6⟩
        (WorkOutcome.ok JsVal.vundef))
        ([((2 : Nat), WorkOutcome.ok JsVal.vundef),
          ((3 : Nat), WorkOutcome.err JsVal.vother)].map
          (fun p => CoordEv.call true p.1 ⟨"s", "mod", 6⟩ p.2))).workLog =
      CoordState.initial.workLog ++ [⟨"s", "mod", 6⟩] ∧
    alookup (coordRun (prefetchPackage CoordState.initial true 1 ⟨"s", "mod", 6⟩
        (WorkOutcome.ok JsVal.vundef))
        ([((2 : Nat), WorkOutcome.ok JsVal.vundef),
          ((3 : Nat), WorkOutcome.err JsVal.vother)].map
          (fun p => CoordEv.call true p.1 ⟨"s", "mod", 6⟩ p.2))).callerP 1 =
      some CoordState.initial.nextP ∧
    alookup (coordRun (prefetchPackage CoordState.initial true 1 ⟨"s", "mod", 6⟩
        (WorkOutcome.ok JsVal.vundef))
        ([((2 : Nat), WorkOutcome.ok JsVal.vundef),
          ((3 : Nat), WorkOutcome.err JsVal.vother)].map
          (fun p => CoordEv.call true p.1 ⟨"s", "mod", 6⟩ p.2))).callerP 2 =
      some CoordState.initial.nextP ∧
    alookup (coordRun (prefetchPackage CoordState.initial true 1 ⟨"s", "mod", 6⟩
        (WorkOutcome.ok JsVal.vundef))
        ([((2 : Nat), WorkOutcome.ok JsVal.vundef),
          ((3 : Nat), WorkOutcome.err JsVal.vother)].map
          (fun p => CoordEv.call true p.1 ⟨"s", "mod", 6⟩ p.2))).ongoing ⟨"s", "mod", 6⟩ =
      some ⟨CoordState.initial.nextP, WorkOutcome.ok JsVal.vundef⟩ ∧
    alookup (settleDownload (coordRun (prefetchPackage CoordState.initial true 1
        ⟨"s", "mod", 6⟩ (WorkOutcome.ok JsVal.vundef))
        ([((2 : Nat), WorkOutcome.ok JsVal.vundef),
          ((3 : Nat), WorkOutcome.err JsVal.vother)].map
          (fun p => CoordEv.call true p.1 ⟨"s", "mod", 6⟩ p.2))) ⟨"s", "mod", 6⟩
        true).settled CoordState.initial.nextP =
      some (normOutcome (WorkOutcome.ok JsVal.vundef)) := by
  obtain ⟨h1, h2, h3, h4, h5⟩ := at_most_one_inflight CoordState.initial 1 ⟨"s", "mod", 6⟩
    (WorkOutcome.ok JsVal.vundef)
    [((2 : Nat), WorkOutcome.ok JsVal.vundef), ((3 : Nat), WorkOutcome.err JsVal.vother)]
    (by decide)
  exact ⟨h1, h2, h3 (2, WorkOutcome.ok JsVal.vundef) (by simp), h4, h5⟩

/-- C2 counterexample: in the spec scenario (fresh key, two concurrent calls,
work resolving with the string v2), the callers' shared promise resolves with
the void result of the final status-store write, not with v2: the source
chains the work result into setDownloaded and returns that write's resolution
to the caller (its documentation says the returned data is not reliable). -/
theorem prefetch_resolution_not_work_result :
    alookup (coordRun CoordState.initial
        [CoordEv.call true 1 ⟨"s", "mod", 7⟩ (WorkOutcome.ok (JsVal.vstr "v2")),
          CoordEv.call true 2 ⟨"s", "mod", 7⟩ (WorkOutcome.ok (JsVal.vstr "v2")),
          CoordEv.finish ⟨"s", "mod", 7⟩ true]).settled 0 =
      some (WorkOutcome.ok JsVal.vundef) ∧
    alookup (coordRun CoordState.initial
        [CoordEv.call true 1 ⟨"s", "mod", 7⟩ (WorkOutcome.ok (JsVal.vstr "v2")),
          CoordEv.call true 2 ⟨"s", "mod", 7⟩ (WorkOutcome.ok (JsVal.vstr "v2")),
          CoordEv.finish ⟨"s", "mod", 7⟩ true]).callerP 1 = some 0 ∧
    alookup (coordRun CoordState.initial
        [CoordEv.call true 1 ⟨"s", "mod", 7⟩ (WorkOutcome.ok (JsVal.vstr "v2")),
          CoordEv.call true 2 ⟨"s", "mod", 7⟩ (WorkOutcome.ok (JsVal.vstr "v2")),
          CoordEv.finish ⟨"s", "mod", 7⟩ true]).callerP 2 = some 0 ∧
    ¬ alookup (coordRun CoordState.initial
        [CoordEv.call true 1 ⟨"s", "mod", 7⟩ (WorkOutcome.ok (JsVal.vstr "v2")),
          CoordEv.call true 2 ⟨"s", "mod", 7⟩ (WorkOutcome.ok (JsVal.vstr "v2")),
          CoordEv.finish ⟨"s", "mod", 7⟩ true]).settled 0 =
      some (WorkOutcome.ok (JsVal.vstr "v2")) := by
  decide

/-- C2 amended: for a key with no prior in-flight record, when the work
function resolves with the string v2 and a second concurrent call is issued
for the same key, both callers share one promise which settles successfully
(resolving with the unreliable void result of the status-store write rather
than with v2), the work function is invoked exactly once, and the final
stored status is DOWNLOADED with extra v2. -/
theorem concurrent_prefetch_scenario (σ : CoordState) (c1 c2 : Nat) (k : PkgKey)
    (h : alookup σ.ongoing k = none) :
    alookup (coordRun σ [CoordEv.call true c1 k (WorkOutcome.ok (JsVal.vstr "v2")),
        CoordEv.call true c2 k (WorkOutcome.ok (JsVal.vstr "v2")),
        CoordEv.finish k true]).callerP c1 = some σ.nextP ∧
    alookup (coordRun σ [CoordEv.call true c1 k (WorkOutcome.ok (JsVal.vstr "v2")),
        CoordEv.call true c2 k (WorkOutcome.ok (JsVal.vstr "v2")),
        CoordEv.finish k true]).callerP c2 = some σ.nextP ∧
    alookup (coordRun σ [CoordEv.call true c1 k (WorkOutcome.ok (JsVal.vstr "v2")),
        CoordEv.call true c2 k (WorkOutcome.ok (JsVal.vstr "v2")),
        CoordEv.finish k true]).settled σ.nextP = some (WorkOutcome.ok JsVal.vundef) ∧
    (coordRun σ [CoordEv.call true c1 k (WorkOutcome.ok (JsVal.vstr "v2")),
        CoordEv.call true c2 k (WorkOutcome.ok (JsVal.vstr "v2")),
        CoordEv.finish k true]).workLog = σ.workLog ++ [k] ∧
    (storedEntry (coordRun σ [CoordEv.call true c1 k (WorkOutcome.ok (JsVal.vstr "v2")),
        CoordEv.call true c2 k (WorkOutcome.ok (JsVal.vstr "v2")),
        CoordEv.finish k true]).store k).status = PkgStatus.downloaded ∧
    (storedEntry (coordRun σ [CoordEv.call true c1 k (WorkOutcome.ok (JsVal.vstr "v2")),
        CoordEv.call true c2 k (WorkOutcome.ok (JsVal.vstr "v2")),
        CoordEv.finish k true]).store k).extra = "v2" := by
  by_cases hcc : c2 = c1 <;>
    simp [coordRun, coordStep, prefetchPackage, settleDownload, h, setDownloading,
      setDownloaded, storePackageStatus, storedEntry, jsExtra, hcc]

/-- C2 amended witness: the scenario on a fresh concrete key. -/
theorem concurrent_prefetch_scenario_witness :
    alookup (coordRun CoordState.initial
        [CoordEv.call true 1 ⟨"s", "mod", 8⟩ (WorkOutcome.ok (JsVal.vstr "v2")),
          CoordEv.call true 2 ⟨"s", "mod", 8⟩ (WorkOutcome.ok (JsVal.vstr "v2")),
          CoordEv.finish ⟨"s", "mod", 8⟩ true]).callerP 1 = some CoordState.initial.nextP ∧
    alookup (coordRun CoordState.initial
        [CoordEv.call true 1 ⟨"s", "mod", 8⟩ (WorkOutcome.ok (JsVal.vstr "v2")),
          CoordEv.call true 2 ⟨"s", "mod", 8⟩ (WorkOutcome.ok (JsVal.vstr "v2")),
          CoordEv.finish ⟨"s", "mod", 8⟩ true]).callerP 2 = some CoordState.initial.nextP ∧
    alookup (coordRun CoordState.initial
        [CoordEv.call true 1 ⟨"s", "mod", 8⟩ (WorkOutcome.ok (JsVal.vstr "v2")),
          CoordEv.call true 2 ⟨"s", "mod", 8⟩ (WorkOutcome.ok (JsVal.vstr "v2")),
          CoordEv.finish ⟨"s", "mod", 8⟩ true]).settled CoordState.initial.nextP =
      some (WorkOutcome.ok JsVal.vundef) ∧
    (coordRun CoordState.initial
        [CoordEv.call true 1 ⟨"s", "mod", 8⟩ (WorkOutcome.ok (JsVal.vstr "v2")),
          CoordEv.call true 2 ⟨"s", "mod", 8⟩ (WorkOutcome.ok (JsVal.vstr "v2")),
          CoordEv.finish ⟨"s", "mod", 8⟩ true]).workLog =
      CoordState.initial.workLog ++ [⟨"s", "mod", 8⟩] ∧
    (storedEntry (coordRun CoordState.initial
        [CoordEv.call true 1 ⟨"s", "mod", 8⟩ (WorkOutcome.ok (JsVal.vstr "v2")),
          CoordEv.call true 2 ⟨"s", "mod", 8⟩ (WorkOutcome.ok (JsVal.vstr "v2")),
          CoordEv.finish ⟨"s", "mod", 8⟩ true]).store ⟨"s", "mod", 8⟩).status =
      PkgStatus.downloaded ∧
    (storedEntry (coordRun CoordState.initial
        [CoordEv.call true 1 ⟨"s", "mod", 8⟩ (WorkOutcome.ok (JsVal.vstr "v2")),
          CoordEv.call true 2 ⟨"s", "mod", 8⟩ (WorkOutcome.ok (JsVal.vstr "v2")),
          CoordEv.finish ⟨"s", "mod", 8⟩ true]).store ⟨"s", "mod", 8⟩).extra = "v2" :=
  concurrent_prefetch_scenario CoordState.initial 1 2 ⟨"s", "mod", 8⟩ (by decide)

/-- C8 counterexample: the two variants do not have identical status
transitions and rollback behaviour.  For the same failing acquisition error
on a fresh key, the resource variant's prefix failure (loadContents or
getIntroFiles rejected) settles with the status store and the operation
trace untouched -- no DOWNLOADING interval, no rollback write -- while the
activity variant's failing work leaves a store that passed through
DOWNLOADING and was rolled back, and a setPrevious / set(DOWNLOADING) / work
/ restorePrevious trace; in particular the coordination views of the two
runs differ. -/
theorem resource_prefix_failure_breaks_equivalence :
    (settleResourceDownload (downloadOrPrefetch CoordState.initial true 1 ⟨"s", "mod", 9⟩
        (resourceResult (ResourcePipeline.prefixFail (JsVal.vstr "server-down"))))
        ⟨"s", "mod", 9⟩ (ResourcePipeline.prefixFail (JsVal.vstr "server-down"))
        true).store = [] ∧
    (settleResourceDownload (downloadOrPrefetch CoordState.initial true 1 ⟨"s", "mod", 9⟩
        (resourceResult (ResourcePipeline.prefixFail (JsVal.vstr "server-down"))))
        ⟨"s", "mod", 9⟩ (ResourcePipeline.prefixFail (JsVal.vstr "server-down"))
        true).opLog = [] ∧
    ¬ (settleDownload (prefetchPackage CoordState.initial true 1 ⟨"s", "mod", 9⟩
        (WorkOutcome.err (JsVal.vstr "server-down"))) ⟨"s", "mod", 9⟩ true).store = [] ∧
    (settleDownload (prefetchPackage CoordState.initial true 1 ⟨"s", "mod", 9⟩
        (WorkOutcome.err (JsVal.vstr "server-down"))) ⟨"s", "mod", 9⟩ true).opLog =
      [(⟨"s", "mod", 9⟩, CoordOp.opSetPrevious),
        (⟨"s", "mod", 9⟩, CoordOp.opSet PkgStatus.downloading),
        (⟨"s", "mod", 9⟩, CoordOp.opWork),
        (⟨"s", "mod", 9⟩, CoordOp.opRestorePrevious)] ∧
    ¬ coordView (settleResourceDownload (downloadOrPrefetch CoordState.initial true 1
        ⟨"s", "mod", 9⟩
        (resourceResult (ResourcePipeline.prefixFail (JsVal.vstr "server-down"))))
        ⟨"s", "mod", 9⟩ (ResourcePipeline.prefixFail (JsVal.vstr "server-down")) true) =
      coordView (settleDownload (prefetchPackage CoordState.initial true 1 ⟨"s", "mod", 9⟩
        (WorkOutcome.err (JsVal.vstr "server-down"))) ⟨"s", "mod", 9⟩ true) := by
  decide

/-- C8 amended: the resource and activity variants share the offline
precondition and the per-key de-duplication through the OngoingDownload
registry verbatim (the offline and de-duplicated calls produce identical
states), and for a pipeline that reaches the filepool stage the spec-modelled
filepool internals perform the same status transitions and rollback as the
activity variant for the same work outcome (equal coordination views of the
full invocation); but the coordination semantics are not identical: the
resource variant's loadContents / getIntroFiles prefix runs before any
status transition and its chain has no catch, so a prefix failure rejects
the caller with the status store and operation trace untouched -- no
DOWNLOADING interval and no rollback write. -/
theorem resource_variant_shared_guards_and_filepool_parity (σ : CoordState)
    (c : Nat) (k : PkgKey) (w : WorkOutcome) (pl : ResourcePipeline) (ok : Bool)
    (e : JsVal) :
    downloadOrPrefetch σ false c k (resourceResult pl) = prefetchPackage σ false c k w ∧
    (∀ ent, alookup σ.ongoing k = some ent →
      downloadOrPrefetch σ true c k (resourceResult pl) = prefetchPackage σ true c k w) ∧
    (alookup σ.ongoing k = none →
      coordView (settleResourceDownload (downloadOrPrefetch σ true c k
          (resourceResult (ResourcePipeline.filepool w))) k
          (ResourcePipeline.filepool w) ok) =
        coordView (settleDownload (prefetchPackage σ true c k w) k ok)) ∧
    (alookup σ.ongoing k = none →
      (settleResourceDownload (downloadOrPrefetch σ true c k
          (resourceResult (ResourcePipeline.prefixFail e))) k
          (ResourcePipeline.prefixFail e) true).store = σ.store ∧
      (settleResourceDownload (downloadOrPrefetch σ true c k
          (resourceResult (ResourcePipeline.prefixFail e))) k
          (ResourcePipeline.prefixFail e) true).opLog = σ.opLog ∧
      alookup (settleResourceDownload (downloadOrPrefetch σ true c k
          (resourceResult (ResourcePipeline.prefixFail e))) k
          (ResourcePipeline.prefixFail e) true).settled σ.nextP =
        some (WorkOutcome.err e) ∧
      alookup (settleResourceDownload (downloadOrPrefetch σ true c k
          (resourceResult (ResourcePipeline.prefixFail e))) k
          (ResourcePipeline.prefixFail e) true).ongoing k = none) := by
  refine ⟨rfl, ?_, ?_, ?_⟩
  · intro ent hent
    simp [downloadOrPrefetch, prefetchPackage, hent]
  · intro h
    cases w with
    | ok v =>
        cases ok <;>
          simp [downloadOrPrefetch, prefetchPackage, settleResourceDownload,
            settleDownload, resourceResult, h, setDownloading, setDownloaded,
            setPreviousStatusAndReject, storePackageStatus, storedEntry, coordView,
            normEntry, normOutcome, List.append_assoc]
    | err e2 =>
        cases ok <;>
          simp [downloadOrPrefetch, prefetchPackage, settleResourceDownload,
            settleDownload, resourceResult, h, setDownloading,
            setPreviousStatusAndReject, setPackagePreviousStatus, storePackageStatus,
            storedEntry, coordView, normEntry, normOutcome, List.append_assoc]
  · intro h
    refine ⟨?_, ?_, ?_, ?_⟩ <;>
      simp [downloadOrPrefetch, settleResourceDownload, resourceResult, h,
        alookup_filter_ne]

/-- C8 amended witness: the shared guards and the filepool-stage parity at
concrete inputs (a fresh key for the offline, parity and prefix-failure
parts; a key with an in-flight entry for the de-duplication part). -/
theorem resource_variant_shared_guards_and_filepool_parity_witness :
    downloadOrPrefetch CoordState.initial false 1 ⟨"s", "mod", 10⟩
        (resourceResult (ResourcePipeline.filepool (WorkOutcome.ok JsVal.vundef))) =
      prefetchPackage CoordState.initial false 1 ⟨"s", "mod", 10⟩
        (WorkOutcome.ok JsVal.vundef) ∧
    downloadOrPrefetch
        ⟨[], [(⟨"s", "mod", 10⟩, ⟨0, WorkOutcome.ok JsVal.vundef⟩)], 1, [], [], [], []⟩
        true 2 ⟨"s", "mod", 10⟩
        (resourceResult (ResourcePipeline.filepool (WorkOutcome.ok JsVal.vundef))) =
      prefetchPackage
        ⟨[], [(⟨"s", "mod", 10⟩, ⟨0, WorkOutcome.ok JsVal.vundef⟩)], 1, [], [], [], []⟩
        true 2 ⟨"s", "mod", 10⟩ (WorkOutcome.ok JsVal.vundef) ∧
    coordView (settleResourceDownload (downloadOrPrefetch CoordState.initial true 1
        ⟨"s", "mod", 10⟩
        (resourceResult (ResourcePipeline.filepool (WorkOutcome.ok JsVal.vundef))))
        ⟨"s", "mod", 10⟩ (ResourcePipeline.filepool (WorkOutcome.ok JsVal.vundef)) true) =
      coordView (settleDownload (prefetchPackage CoordState.initial true 1
        ⟨"s", "mod", 10⟩ (WorkOutcome.ok JsVal.vundef)) ⟨"s", "mod", 10⟩ true) ∧
    (settleResourceDownload (downloadOrPrefetch CoordState.initial true 1 ⟨"s", "mod", 10⟩
        (resourceResult (ResourcePipeline.prefixFail (JsVal.vstr "server-down"))))
        ⟨"s", "mod", 10⟩ (ResourcePipeline.prefixFail (JsVal.vstr "server-down"))
        true).store = CoordState.initial.store ∧
    alookup (settleResourceDownload (downloadOrPrefetch CoordState.initial true 1
        ⟨"s", "mod", 10⟩
        (resourceResult (ResourcePipeline.prefixFail (JsVal.vstr "server-down"))))
        ⟨"s", "mod", 10⟩ (ResourcePipeline.prefixFail (JsVal.vstr "server-down"))
        true).settled CoordState.initial.nextP =
      some (WorkOutcome.err (JsVal.vstr "server-down")) := by
  obtain ⟨h1, _, h3, h4⟩ := resource_variant_shared_guards_and_filepool_parity
    CoordState.initial 1 ⟨"s", "mod", 10⟩ (WorkOutcome.ok JsVal.vundef)
    (ResourcePipeline.filepool (WorkOutcome.ok JsVal.vundef)) true
    (JsVal.vstr "server-down")
  obtain ⟨_, h2, _, _⟩ := resource_variant_shared_guards_and_filepool_parity
    ⟨[], [(⟨"s", "mod", 10⟩, ⟨0, WorkOutcome.ok JsVal.vundef⟩)], 1, [], [], [], []⟩
    2 ⟨"s", "mod", 10⟩ (WorkOutcome.ok JsVal.vundef)
    (ResourcePipeline.filepool (WorkOutcome.ok JsVal.vundef)) true
    (JsVal.vstr "server-down")
  exact ⟨h1, h2 ⟨0, WorkOutcome.ok JsVal.vundef⟩ (by decide), h3 (by decide),
    (h4 (by decide)).1, (h4 (by decide)).2.2.1⟩

theorem onStatusEvent_emit_indep (cmp : ModuleCmp) (st1 st2 : ModuleCmpState)
    (e : StatusEvt) : (onStatusEvent cmp st1 e).2 = (onStatusEvent cmp st2 e).2 := by
  cases hc : cmp.handlerComponent with
  | none => simp [onStatusEvent, hc]
  | some comp =>
      simp only [onStatusEvent, hc]
      split
      · split
        · cases e.status <;> simp [showStatus]
        · split <;> rfl
      · rfl

theorem onStatusEvent_state_idem (cmp : ModuleCmp) (st : ModuleCmpState) (e : StatusEvt) :
    (onStatusEvent cmp (onStatusEvent cmp st e).1 e).1 = (onStatusEvent cmp st e).1 := by
  cases hc : cmp.handlerComponent with
  | none => simp [onStatusEvent, hc]
  | some comp =>
      simp only [onStatusEvent, hc]
      split
      · split
        · cases e.status <;> simp [showStatus]
        · split <;> rfl
      · rfl

/-- C9 counterexample: with a matching component, download enabled and an
updateStatus callback defined, broadcasting the same DOWNLOADED status twice
with no intervening change re-triggers the observer: updateStatus is invoked
once per delivery (twice in total), because the observer in the source does
not compare the incoming status against any last-seen value. -/
theorem repeated_identical_broadcast_retriggers :
    (deliverEvents ⟨1, some "mod", true, true, true⟩ ⟨false, false, false⟩
        [⟨"mod", 1, some PkgStatus.downloaded⟩, ⟨"mod", 1, some PkgStatus.downloaded⟩]).2 =
      [some PkgStatus.downloaded, some PkgStatus.downloaded] ∧
    (deliverEvents ⟨1, some "mod", true, true, true⟩ ⟨false, false, false⟩
        [⟨"mod", 1, some PkgStatus.downloaded⟩]).2 = [some PkgStatus.downloaded] ∧
    ¬ (deliverEvents ⟨1, some "mod", true, true, true⟩ ⟨false, false, false⟩
        [⟨"mod", 1, some PkgStatus.downloaded⟩, ⟨"mod", 1, some PkgStatus.downloaded⟩]).2 =
      (deliverEvents ⟨1, some "mod", true, true, true⟩ ⟨false, false, false⟩
        [⟨"mod", 1, some PkgStatus.downloaded⟩]).2 := by
  decide

/-- C9 amended: the observer filters broadcasts by component and componentId
but performs no comparison against a last-seen status; delivering the same
broadcast twice leaves the display state exactly as after one delivery (the
update is idempotent on component state) while the updateStatus invocations
are emitted again, doubling the invocation list. -/
theorem observer_idempotent_state_reinvokes_update (cmp : ModuleCmp)
    (st : ModuleCmpState) (e : StatusEvt) :
    (deliverEvents cmp st [e, e]).1 = (deliverEvents cmp st [e]).1 ∧
    (deliverEvents cmp st [e, e]).2 =
      (deliverEvents cmp st [e]).2 ++ (deliverEvents cmp st [e]).2 := by
  constructor
  · simpa only [deliverEvents] using onStatusEvent_state_idem cmp st e
  · simp only [deliverEvents, List.append_nil]
    rw [onStatusEvent_emit_indep cmp (onStatusEvent cmp st e).1 st e]

end Prefetch
